import Mathlib

/-!
# Verification of the MikroTik chatbot command pipeline

A shallow embedding of the translation / execution / formatting pipeline of
`mikrotik_chatbot.py` (functions `get_ai_response`, `execute_command`,
`format_response`), together with proofs of the specified properties.

Modelling conventions:
* Python `None` becomes `Option.none`; a Python `dict` produced by `json.loads`
  becomes an ordered association list `List (String × Json)` with the
  first-position / last-value update rule of Python dicts.
* Router query results are rows of string fields (`Record`), as delivered by
  the RouterOS client library.
* Exceptions that the Python code lets escape are `Except.error`; exceptions it
  catches are ordinary values along the happy path of the model.
* The external collaborators (the Gemini service, the RouterOS transport) are
  oracles passed in as parameters: the service reply is an
  `Except String String` (exception or reply text), the router is a function
  from path and params to `Except String (List Record)`.
-/

/-- JSON values as produced by `json.loads`.  Numbers keep their source lexeme:
no claim observes a numeric value, only the shape of the tree. -/
inductive Json where
  | null
  | bool (b : Bool)
  | num (raw : String)
  | str (s : String)
  | arr (elems : List Json)
  | obj (fields : List (String × Json))

/-- Python `x == some_string` where `x` came out of a JSON document: true only
when `x` is that very string. -/
def Json.eqStr : Json → String → Bool
  | Json.str t, s => t == s
  | _, _ => false

/-- One row of a router query result: an ordered mapping from field name to
scalar value (rendered as a string by the transport). -/
abbrev Record := List (String × String)

/-- What `execute_command` hands to `format_response`: either a message string
or the list of records returned by the router. -/
inductive PyResult where
  | str (s : String)
  | records (rs : List Record)

/-- Python's `str.title()` restricted to its documented algorithm: a word is a
maximal run of letters; the first letter of a word is uppercased, the rest
lowercased; non-letters pass through unchanged. -/
def pyTitleGo : List Char → Bool → List Char
  | [], _ => []
  | c :: cs, prevCased =>
    if c.isAlpha then
      (if prevCased then c.toLower else c.toUpper) :: pyTitleGo cs true
    else
      c :: pyTitleGo cs false

def pyTitle (s : String) : String :=
  String.mk (pyTitleGo s.data false)

/-- Python's `k.replace('-', ' ')`: every hyphen becomes a space. -/
def replaceDash (s : String) : String :=
  String.mk (s.data.map (fun c => if c == '-' then ' ' else c))

/-- The fixed "no results" message of `format_response`. -/
def noResultsMsg : String := "No results found or command executed successfully."

/-- The DHCP-lease summary header, `f"### 💡 Found {count} active client(s) online.\n\n---\n\n"`. -/
def leaseCountHeader (count : Nat) : String :=
  s!"### 💡 Found {count} active client(s) online.\n\n---\n\n"

/-- `if command_info and command_info.get('cmd') == '/ip/dhcp-server/lease'`:
the descriptor is truthy (present and non-empty) and its `cmd` value is the
lease path string. -/
def isLeaseCmd : Option (List (String × Json)) → Bool
  | none => false
  | some fields =>
    !fields.isEmpty &&
      (match fields.lookup "cmd" with
       | some v => v.eqStr "/ip/dhcp-server/lease"
       | none => false)

/-- The loop body of `format_response`: one record rendered as
`"- **<Label>**: `<value>`"` lines joined by newlines, followed by the
record separator. -/
def formatItem (item : Record) : String :=
  let lines := item.map (fun kv =>
    let label := pyTitle (replaceDash kv.fst)
    let v := kv.snd
    s!"- **{label}**: `{v}`")
  String.intercalate "\n" lines ++ "\n\n---\n\n"

/-- `format_response(response, command_info)` of `mikrotik_chatbot.py`. -/
def format_response (response : PyResult) (command_info : Option (List (String × Json))) : String :=
  match response with
  | PyResult.str s => s
  | PyResult.records rs =>
    if rs.isEmpty then noResultsMsg
    else
      let count_string :=
        if isLeaseCmd command_info then
          leaseCountHeader (rs.filter (fun lease => lease.lookup "status" == some "bound")).length
        else ""
      count_string ++ String.join (rs.map formatItem)

example : pyTitle "mac address" = "Mac Address" := rfl

example :
    format_response (PyResult.records [[("mac-address", "AA:BB"), ("status", "bound")]]) none =
      "- **Mac Address**: `AA:BB`\n- **Status**: `bound`\n\n---\n\n" := rfl

/-! ## Executor: `execute_command` -/

/-- The router collaborator: a path-addressed query taking the raw `cmd` value
and the raw `params` value, returning records or raising (`Except.error`).
The arguments are the unevaluated JSON values so that the model records
exactly what the Python call `api.get_resource(cmd_path).get(**params)`
receives. -/
abbrev RouterApi := Json → Json → Except String (List Record)

/-- The advisory string for an absent (or falsy) descriptor. -/
def noCommandMsg : String :=
  "The AI could not determine a valid command for your request. Please try rephrasing it."

/-- The fixed reboot advisory string. -/
def rebootAdvisoryMsg : String :=
  "Reboot command received. Please use the \x27System Controls\x27 section in the sidebar to confirm the reboot."

/-- The caught-exception message, `f"An error occurred while executing the command: {e}"`. -/
def execErrorMsg (e : String) : String :=
  s!"An error occurred while executing the command: {e}"

/-- The outcome of one `execute_command` invocation: the returned value and
the list of query calls issued against the router (each recorded as the
(path, params) pair passed through). -/
structure ExecResult where
  value : PyResult
  calls : List (Json × Json)

/-- `execute_command(api, command_info)` of `mikrotik_chatbot.py`.

`Except.error` models an exception escaping the function: the only such
exception is the `KeyError` from `command_info['cmd']`, which is evaluated
before the `try` block.  Note that Python's `if not command_info` is true both
for `None` and for an empty dict, so both yield the advisory string. -/
def execute_command (api : RouterApi) (command_info : Option (List (String × Json))) :
    Except String ExecResult :=
  match command_info with
  | none => Except.ok ⟨PyResult.str noCommandMsg, []⟩
  | some fields =>
    if fields.isEmpty then Except.ok ⟨PyResult.str noCommandMsg, []⟩
    else
      match fields.lookup "cmd" with
      | none => Except.error "KeyError: \x27cmd\x27"
      | some cmd_path =>
        let params := (fields.lookup "params").getD (Json.obj [])
        if cmd_path.eqStr "/system/reboot" then
          Except.ok ⟨PyResult.str rebootAdvisoryMsg, []⟩
        else
          match api cmd_path params with
          | Except.ok result => Except.ok ⟨PyResult.records result, [(cmd_path, params)]⟩
          | Except.error e => Except.ok ⟨PyResult.str (execErrorMsg e), [(cmd_path, params)]⟩

example :
    execute_command (fun _ _ => Except.ok [])
        (some [("cmd", Json.str "/system/reboot"), ("params", Json.obj [("a", Json.str "b")])]) =
      Except.ok ⟨PyResult.str rebootAdvisoryMsg, []⟩ := rfl

example :
    execute_command (fun _ _ => Except.ok []) (some []) =
      Except.ok ⟨PyResult.str noCommandMsg, []⟩ := rfl

/-! ## Translator: `get_ai_response`

The reply-processing pipeline: `re.search(r'\x7b.*\x7d', text, re.DOTALL)`,
then `json.loads`, then the key/shape validation. -/

/-- `re.search(r'\x7b.*\x7d', s, re.DOTALL)`: the match, when one exists,
starts at the first `\x7b` of `s` and — because `.*` is greedy and DOTALL
makes `.` match every character — extends to the last `\x7d` of `s`.  There
is a match iff the first `\x7b` lies strictly before the last `\x7d`. -/
def findJsonMatch (s : String) : Option String :=
  let cs := s.data
  match cs.findIdx? (fun c => c == '\x7b') with
  | none => none
  | some i =>
    match cs.reverse.findIdx? (fun c => c == '\x7d') with
    | none => none
    | some r =>
      let j := cs.length - 1 - r
      if i < j then some (String.mk ((cs.drop i).take (j - i + 1))) else none

/-- JSON insignificant whitespace. -/
def skipWs : List Char → List Char
  | c :: cs => if c == ' ' || c == '\t' || c == '\n' || c == '\r' then skipWs cs else c :: cs
  | [] => []

/-- Hexadecimal digit value, for `\uXXXX` escapes. -/
def hexVal (c : Char) : Option Nat :=
  if '0' ≤ c ∧ c ≤ '9' then some (c.toNat - '0'.toNat)
  else if 'a' ≤ c ∧ c ≤ 'f' then some (c.toNat - 'a'.toNat + 10)
  else if 'A' ≤ c ∧ c ≤ 'F' then some (c.toNat - 'A'.toNat + 10)
  else none

/-- The body of a JSON string literal, after the opening quote: returns the
decoded string and the input past the closing quote.  Raw control characters
are rejected, as in Python's strict mode; a lone `\uXXXX` escape becomes the
corresponding character (surrogate pairing is not modelled — no claim uses
it). -/
def parseStringBody : List Char → List Char → Option (String × List Char)
  | [], _ => none
  | '"' :: cs, acc => some (String.mk acc.reverse, cs)
  | '\\' :: '"' :: cs, acc => parseStringBody cs ('"' :: acc)
  | '\\' :: '\\' :: cs, acc => parseStringBody cs ('\\' :: acc)
  | '\\' :: '/' :: cs, acc => parseStringBody cs ('/' :: acc)
  | '\\' :: 'b' :: cs, acc => parseStringBody cs ('\x08' :: acc)
  | '\\' :: 'f' :: cs, acc => parseStringBody cs ('\x0c' :: acc)
  | '\\' :: 'n' :: cs, acc => parseStringBody cs ('\n' :: acc)
  | '\\' :: 'r' :: cs, acc => parseStringBody cs ('\r' :: acc)
  | '\\' :: 't' :: cs, acc => parseStringBody cs ('\t' :: acc)
  | '\\' :: 'u' :: h1 :: h2 :: h3 :: h4 :: cs, acc =>
    match hexVal h1, hexVal h2, hexVal h3, hexVal h4 with
    | some a, some b, some c2, some d =>
      parseStringBody cs (Char.ofNat (((a * 16 + b) * 16 + c2) * 16 + d) :: acc)
    | _, _, _, _ => none
  | '\\' :: _, _ => none
  | c :: cs, acc =>
    if c.toNat < 0x20 then none
    else parseStringBody cs (c :: acc)

/-- Longest leading run of decimal digits. -/
def takeDigits : List Char → (List Char × List Char)
  | c :: cs =>
    if c.isDigit then
      let p := takeDigits cs
      (c :: p.fst, p.snd)
    else ([], c :: cs)
  | [] => ([], [])

/-- Optional fraction part `.digits` of a JSON number lexeme. -/
def parseFracPart : List Char → Option (List Char × List Char)
  | '.' :: r =>
    let p := takeDigits r
    if p.fst.isEmpty then none else some ('.' :: p.fst, p.snd)
  | cs => some ([], cs)

/-- Optional exponent part `[eE][+-]?digits` of a JSON number lexeme. -/
def parseExpPart : List Char → Option (List Char × List Char)
  | c :: r =>
    if c == 'e' || c == 'E' then
      let sr : List Char × List Char :=
        match r with
        | s :: r2 => if s == '+' || s == '-' then ([s], r2) else ([], s :: r2)
        | [] => ([], [])
      let p := takeDigits sr.snd
      if p.fst.isEmpty then none else some (c :: (sr.fst ++ p.fst), p.snd)
    else some ([], c :: r)
  | [] => some ([], [])

/-- A JSON number lexeme `-?(0|[1-9][0-9]*)(.digits)?([eE][+-]?digits)?`,
returned as its source text. -/
def parseNumber (cs : List Char) : Option (String × List Char) :=
  let mr : List Char × List Char :=
    match cs with
    | '-' :: r => (['-'], r)
    | _ => ([], cs)
  match mr.snd with
  | '0' :: r =>
    match parseFracPart r with
    | none => none
    | some (f, r2) =>
      match parseExpPart r2 with
      | none => none
      | some (ex, r3) => some (String.mk (mr.fst ++ '0' :: (f ++ ex)), r3)
  | c :: r =>
    if c.isDigit then
      let d := takeDigits r
      match parseFracPart d.snd with
      | none => none
      | some (f, r2) =>
        match parseExpPart r2 with
        | none => none
        | some (ex, r3) => some (String.mk (mr.fst ++ c :: (d.fst ++ (f ++ ex))), r3)
    else none
  | [] => none

/-- Consume a literal keyword, character by character. -/
def dropLiteral : List Char → List Char → Option (List Char)
  | [], cs => some cs
  | p :: ps, c :: cs => if c == p then dropLiteral ps cs else none
  | _ :: _, [] => none

/-- Python dict update used while building an object: a repeated key keeps its
first position and takes the last value; a new key is appended. -/
def insertKey : List (String × Json) → String → Json → List (String × Json)
  | [], k, v => [(k, v)]
  | (k2, v2) :: rest, k, v =>
    if k2 == k then (k, v) :: rest else (k2, v2) :: insertKey rest k v

/-- What the recursive-descent parser is currently parsing: a single value,
the members of an object (with the fields built so far), or the elements of
an array. -/
inductive ParseMode where
  | value
  | members (acc : List (String × Json))
  | items (acc : List Json)

/-- What one parser step produced, matching the three modes. -/
inductive ParseOut where
  | value (j : Json)
  | fields (fs : List (String × Json))
  | elems (es : List Json)

/-- Recursive-descent JSON parser, fuelled and structurally recursive on the
fuel (one function over a mode so that concrete inputs evaluate by kernel
reduction).  Mirrors Python's `json.loads` grammar, including the
non-standard `NaN` / `Infinity` / `-Infinity` literals it accepts by default.
In `members` / `items` mode the input starts after the opening bracket and at
least one member / element must be present; a repeated object key keeps its
first position and takes the last value, as in a Python dict. -/
def parseJson : Nat → ParseMode → List Char → Option (ParseOut × List Char)
  | 0, _, _ => none
  | Nat.succ fuel, ParseMode.value, cs0 =>
    let cs := skipWs cs0
    match cs with
    | [] => none
    | '\x7b' :: rest =>
      let rest2 := skipWs rest
      match rest2 with
      | '\x7d' :: r2 => some (ParseOut.value (Json.obj []), r2)
      | _ =>
        match parseJson fuel (ParseMode.members []) rest2 with
        | some (ParseOut.fields fs, r2) => some (ParseOut.value (Json.obj fs), r2)
        | _ => none
    | '[' :: rest =>
      let rest2 := skipWs rest
      match rest2 with
      | ']' :: r2 => some (ParseOut.value (Json.arr []), r2)
      | _ =>
        match parseJson fuel (ParseMode.items []) rest2 with
        | some (ParseOut.elems es, r2) => some (ParseOut.value (Json.arr es), r2)
        | _ => none
    | '"' :: rest =>
      match parseStringBody rest [] with
      | some (s, r2) => some (ParseOut.value (Json.str s), r2)
      | none => none
    | _ =>
      match dropLiteral "true".data cs with
      | some r => some (ParseOut.value (Json.bool true), r)
      | none =>
      match dropLiteral "false".data cs with
      | some r => some (ParseOut.value (Json.bool false), r)
      | none =>
      match dropLiteral "null".data cs with
      | some r => some (ParseOut.value Json.null, r)
      | none =>
      match dropLiteral "NaN".data cs with
      | some r => some (ParseOut.value (Json.num "NaN"), r)
      | none =>
      match dropLiteral "Infinity".data cs with
      | some r => some (ParseOut.value (Json.num "Infinity"), r)
      | none =>
      match dropLiteral "-Infinity".data cs with
      | some r => some (ParseOut.value (Json.num "-Infinity"), r)
      | none =>
      match parseNumber cs with
      | some (lex, r) => some (ParseOut.value (Json.num lex), r)
      | none => none
  | Nat.succ fuel, ParseMode.members acc, cs0 =>
    let cs := skipWs cs0
    match cs with
    | '"' :: rest =>
      match parseStringBody rest [] with
      | none => none
      | some (key, r2) =>
        let r3 := skipWs r2
        match r3 with
        | ':' :: r4 =>
          match parseJson fuel ParseMode.value r4 with
          | some (ParseOut.value v, r5) =>
            let acc2 := insertKey acc key v
            let r6 := skipWs r5
            match r6 with
            | ',' :: r7 => parseJson fuel (ParseMode.members acc2) r7
            | '\x7d' :: r7 => some (ParseOut.fields acc2, r7)
            | _ => none
          | _ => none
        | _ => none
    | _ => none
  | Nat.succ fuel, ParseMode.items acc, cs =>
    match parseJson fuel ParseMode.value cs with
    | some (ParseOut.value v, r) =>
      let r2 := skipWs r
      match r2 with
      | ',' :: r3 => parseJson fuel (ParseMode.items (acc ++ [v])) r3
      | ']' :: r3 => some (ParseOut.elems (acc ++ [v]), r3)
      | _ => none
    | _ => none

/-- `json.loads`: parse one value and require only whitespace after it.  The
fuel `2 * length + 2` is an upper bound on the recursion depth, since every
fuel step past the first consumes input or follows one consumed bracket. -/
def jsonLoads (s : String) : Except String Json :=
  let cs := s.data
  match parseJson (2 * cs.length + 2) ParseMode.value cs with
  | some (ParseOut.value v, rest) =>
    if (skipWs rest).isEmpty then Except.ok v
    else Except.error "Extra data"
  | _ => Except.error "JSONDecodeError"

/-- `isinstance(x, dict)` on an optional JSON value (`None` is not a dict). -/
def isObjVal : Option Json → Bool
  | some (Json.obj _) => true
  | _ => false

/-- The validation step of `get_ai_response`:
`if "cmd" in command_info and isinstance(command_info.get("params"), dict)`.
A match of `\x7b.*\x7d` can only parse to an object, so the non-object arm is
unreachable from `get_ai_response`; it is total here for definiteness (a
non-dict would make the membership test or `.get` raise, caught as `None`). -/
def validateCommand : Json → Option (List (String × Json))
  | Json.obj fields =>
    if (fields.lookup "cmd").isSome && isObjVal (fields.lookup "params") then
      some fields
    else none
  | _ => none

/-- `get_ai_response(user_input, api_key)` of `mikrotik_chatbot.py`, with the
external Gemini service abstracted into two oracles: `configure_ok` (whether
`genai.configure` / model construction raises) and `outcome` (the service
call: `Except.error` for a raised exception — including rejected credentials —
or `Except.ok text` for the reply text).  The user input only feeds the
outbound prompt, so it does not appear; an empty `api_key` is Python's falsy
"missing credential". -/
def get_ai_response (api_key : String) (configure_ok : Bool)
    (outcome : Except String String) : Option (List (String × Json)) :=
  if api_key == "" then none
  else if !configure_ok then none
  else
    match outcome with
    | Except.error _ => none
    | Except.ok text =>
      match findJsonMatch text with
      | none => none
      | some command_str =>
        match jsonLoads command_str with
        | Except.error _ => none
        | Except.ok command_info => validateCommand command_info

example :
    get_ai_response "k" true
        (Except.ok "Sure! \x7b\"cmd\": \"/system/resource\", \"params\": \x7b\x7d\x7d Hope that helps!") =
      some [("cmd", Json.str "/system/resource"), ("params", Json.obj [])] := rfl

example :
    get_ai_response "k" true
        (Except.ok "\x7b\"cmd\": \"/a\", \"params\": \x7b\x7d\x7d and \x7b\"cmd\": \"/b\", \"params\": \x7b\x7d\x7d") =
      none := rfl

example :
    get_ai_response "k" true (Except.ok "\x7b\"cmd\": \"\", \"params\": \x7b\x7d\x7d") =
      some [("cmd", Json.str ""), ("params", Json.obj [])] := rfl

/-- `pat` is a prefix of the second list. -/
def hasPrefixChars : List Char → List Char → Bool
  | [], _ => true
  | _ :: _, [] => false
  | p :: ps, c :: cs => p == c && hasPrefixChars ps cs

/-- `pat` occurs as a contiguous run somewhere in the second list. -/
def containsChars : List Char → List Char → Bool
  | pat, [] => pat.isEmpty
  | pat, c :: cs => hasPrefixChars pat (c :: cs) || containsChars pat cs

/-- The error classes of `get_ai_response`: missing credential, model
configuration failure, a raised service call (including rejected
credentials), a reply with no regex match, a matched substring that does not
parse, and a parsed object of the wrong shape. -/
def TranslatorErrorPath (api_key : String) (configure_ok : Bool)
    (outcome : Except String String) : Prop :=
  api_key = "" ∨ configure_ok = false ∨
  (∃ e, outcome = Except.error e) ∨
  (∃ t, outcome = Except.ok t ∧ findJsonMatch t = none) ∨
  (∃ t c e, outcome = Except.ok t ∧ findJsonMatch t = some c ∧
    jsonLoads c = Except.error e) ∨
  (∃ t c j, outcome = Except.ok t ∧ findJsonMatch t = some c ∧
    jsonLoads c = Except.ok j ∧ validateCommand j = none)

/-! ## Claim theorems -/

/-- C1: for every command descriptor whose path equals the reserved reboot
path `/system/reboot`, `execute_command` never calls the router query
operation (the call list is empty) and always returns the fixed advisory
string, regardless of the descriptor's params. -/
theorem execute_reboot_guard (api : RouterApi) (fields : List (String × Json))
    (h : fields.lookup "cmd" = some (Json.str "/system/reboot")) :
    execute_command api (some fields) =
      Except.ok ⟨PyResult.str rebootAdvisoryMsg, []⟩ := by
  cases fields with
  | nil => simp [List.lookup] at h
  | cons hd tl =>
    simp [execute_command, h, Json.eqStr]

/-- C1 witness: a concrete reboot descriptor with non-empty params. -/
theorem execute_reboot_guard_witness :
    execute_command (fun _ _ => Except.ok [])
        (some [("cmd", Json.str "/system/reboot"), ("params", Json.obj [("a", Json.str "b")])]) =
      Except.ok ⟨PyResult.str rebootAdvisoryMsg, []⟩ :=
  execute_reboot_guard (fun _ _ => Except.ok [])
    [("cmd", Json.str "/system/reboot"), ("params", Json.obj [("a", Json.str "b")])] rfl

/-- C3 counterexample: the descriptor `{"cmd": "/system/reboot", "params":
{"a": "b"}}` is a valid CommandDescriptor (non-empty path, mapping params)
with non-empty params, yet `execute_command` issues no query call at all —
the reboot guard answers first — refuting "for all valid CommandDescriptors
with non-empty params ... exactly one query call". -/
theorem executor_single_query_cex :
    execute_command (fun _ _ => Except.ok [[("x", "y")]])
        (some [("cmd", Json.str "/system/reboot"), ("params", Json.obj [("a", Json.str "b")])]) =
      Except.ok ⟨PyResult.str rebootAdvisoryMsg, []⟩ := rfl

/-- C3 (amended): for every valid CommandDescriptor with non-empty params
whose path is not the reboot path, `execute_command` issues exactly one query
call, with the descriptor's path and params passed through unmodified, and
returns the resulting record sequence unchanged. -/
theorem executor_query_passthrough (api : RouterApi)
    (fields ps : List (String × Json)) (p : String) (rs : List Record)
    (hcmd : fields.lookup "cmd" = some (Json.str p))
    (hreb : p ≠ "/system/reboot")
    (hparams : fields.lookup "params" = some (Json.obj ps))
    (_hne : ps.isEmpty = false)
    (hapi : api (Json.str p) (Json.obj ps) = Except.ok rs) :
    execute_command api (some fields) =
      Except.ok ⟨PyResult.records rs, [(Json.str p, Json.obj ps)]⟩ := by
  cases fields with
  | nil => simp [List.lookup] at hcmd
  | cons hd tl =>
    simp [execute_command, hcmd, hparams, Json.eqStr, hreb, hapi]

/-- C3 witness: a concrete non-reboot descriptor with one filter param. -/
theorem executor_query_passthrough_witness :
    execute_command (fun _ _ => Except.ok [[("name", "ether1")]])
        (some [("cmd", Json.str "/interface"), ("params", Json.obj [("name", Json.str "ether1")])]) =
      Except.ok ⟨PyResult.records [[("name", "ether1")]],
        [(Json.str "/interface", Json.obj [("name", Json.str "ether1")])]⟩ :=
  executor_query_passthrough (fun _ _ => Except.ok [[("name", "ether1")]])
    [("cmd", Json.str "/interface"), ("params", Json.obj [("name", Json.str "ether1")])]
    [("name", Json.str "ether1")] "/interface" [[("name", "ether1")]]
    rfl (by decide) rfl rfl rfl

/-- C6: for every descriptor with a non-reboot path, a failure raised by the
router query is caught and converted into the error string embedding the
failure's description; the result is `Except.ok` (a returned value), so no
failure propagates out of `execute_command`. -/
theorem executor_failure_caught (api : RouterApi)
    (fields : List (String × Json)) (p e : String)
    (hcmd : fields.lookup "cmd" = some (Json.str p))
    (hreb : p ≠ "/system/reboot")
    (herr : api (Json.str p) ((fields.lookup "params").getD (Json.obj [])) = Except.error e) :
    execute_command api (some fields) =
      Except.ok ⟨PyResult.str (execErrorMsg e),
        [(Json.str p, (fields.lookup "params").getD (Json.obj []))]⟩ := by
  cases fields with
  | nil => simp [List.lookup] at hcmd
  | cons hd tl =>
    simp [execute_command, hcmd, Json.eqStr, hreb, herr]

/-- C6 witness: a concrete router failure ("timeout") on a concrete
descriptor. -/
theorem executor_failure_caught_witness :
    execute_command (fun _ _ => Except.error "timeout")
        (some [("cmd", Json.str "/log"), ("params", Json.obj [])]) =
      Except.ok ⟨PyResult.str (execErrorMsg "timeout"),
        [(Json.str "/log", Json.obj [])]⟩ :=
  executor_failure_caught (fun _ _ => Except.error "timeout")
    [("cmd", Json.str "/log"), ("params", Json.obj [])] "/log" "timeout"
    rfl (by decide) rfl

/-- C10 counterexample: the empty mapping is a present (non-absent)
descriptor lacking the `cmd` key, yet `execute_command` does not raise — the
Python guard `if not command_info` treats the empty dict as falsy and returns
the advisory string instead. -/
theorem executor_missing_cmd_cex :
    execute_command (fun _ _ => Except.ok []) (some []) =
      Except.ok ⟨PyResult.str noCommandMsg, []⟩ := rfl

/-- C10 (amended): for every present *non-empty* descriptor mapping lacking
the `cmd` key, `execute_command` raises an uncaught `KeyError` — the lookup
happens before the `try` block — while the empty mapping is treated like an
absent descriptor, and only the `params` key may be missing (it defaults to
the empty mapping). -/
theorem executor_missing_cmd_raises (api : RouterApi)
    (fields : List (String × Json))
    (hne : fields.isEmpty = false)
    (hcmd : fields.lookup "cmd" = none) :
    execute_command api (some fields) = Except.error "KeyError: \x27cmd\x27" := by
  cases fields with
  | nil => simp [List.isEmpty] at hne
  | cons hd tl =>
    simp [execute_command, hcmd]

/-- C10 witness: a non-empty descriptor carrying only `params`. -/
theorem executor_missing_cmd_raises_witness :
    execute_command (fun _ _ => Except.ok []) (some [("params", Json.obj [])]) =
      Except.error "KeyError: \x27cmd\x27" :=
  executor_missing_cmd_raises (fun _ _ => Except.ok []) [("params", Json.obj [])] rfl rfl

/-- C7: for a non-empty result sequence from the DHCP-lease path,
`format_response` prepends the summary header stating the number of records
whose `status` equals `bound`, followed by the renderings of all records in
their original order. -/
theorem formatter_lease_header (fields : List (String × Json)) (rs : List Record)
    (hne : rs.isEmpty = false)
    (hcmd : fields.lookup "cmd" = some (Json.str "/ip/dhcp-server/lease")) :
    format_response (PyResult.records rs) (some fields) =
      leaseCountHeader (rs.filter (fun lease => lease.lookup "status" == some "bound")).length
        ++ String.join (rs.map formatItem) := by
  cases fields with
  | nil => simp [List.lookup] at hcmd
  | cons hd tl =>
    simp [format_response, hne, isLeaseCmd, hcmd, Json.eqStr]

/-- C7 witness: three leases of which two are bound; the header counts 2 and
the body lists all three in order. -/
theorem formatter_lease_header_witness :
    format_response
        (PyResult.records [[("address", "10.0.0.2"), ("status", "bound")],
          [("address", "10.0.0.3"), ("status", "waiting")],
          [("address", "10.0.0.4"), ("status", "bound")]])
        (some [("cmd", Json.str "/ip/dhcp-server/lease"), ("params", Json.obj [])]) =
      leaseCountHeader 2 ++
        String.join [formatItem [("address", "10.0.0.2"), ("status", "bound")],
          formatItem [("address", "10.0.0.3"), ("status", "waiting")],
          formatItem [("address", "10.0.0.4"), ("status", "bound")]] :=
  formatter_lease_header
    [("cmd", Json.str "/ip/dhcp-server/lease"), ("params", Json.obj [])]
    [[("address", "10.0.0.2"), ("status", "bound")],
      [("address", "10.0.0.3"), ("status", "waiting")],
      [("address", "10.0.0.4"), ("status", "bound")]]
    rfl rfl

/-- C8 counterexample: the formatted block for
`{"mac-address": "AA:BB", "status": "bound"}` does not contain the bare text
`Mac Address: AA:BB`, nor `Status: bound` — the code wraps labels in `- **`
... `**` and values in backticks — so the claim's quoted lines do not occur
(neither as lines nor even as substrings). -/
theorem formatter_record_lines_cex :
    (containsChars "Mac Address: AA:BB".data
        (format_response (PyResult.records [[("mac-address", "AA:BB"), ("status", "bound")]])
          none).data
      = false) ∧
    (containsChars "Status: bound".data
        (format_response (PyResult.records [[("mac-address", "AA:BB"), ("status", "bound")]])
          none).data
      = false) := ⟨rfl, rfl⟩

/-- C8 (amended): the record `{"mac-address": "AA:BB", "status": "bound"}`
formats to the block "- **Mac Address**: `AA:BB`" newline "- **Status**:
`bound`" followed by the record separator: each field renders as a
"label: value" line in record order, with the label hyphen-replaced and
title-cased but wrapped in markdown bold, and the value wrapped in
backticks. -/
theorem formatter_record_lines :
    format_response (PyResult.records [[("mac-address", "AA:BB"), ("status", "bound")]]) none =
      "- **Mac Address**: `AA:BB`\n- **Status**: `bound`\n\n---\n\n" := rfl

/-- C9: `format_response` on an empty record sequence returns the fixed "no
results" string for every descriptor (lease path, other, or absent), and on
any string input returns that string unchanged. -/
theorem formatter_passthrough_empty (s : String) (ci : Option (List (String × Json))) :
    format_response (PyResult.records []) ci = noResultsMsg ∧
    format_response (PyResult.str s) ci = s :=
  ⟨rfl, rfl⟩

/-- C2 counterexample: the reply
`{"cmd": "/a", "params": {}} and {"cmd": "/b", "params": {}}` contains two
JSON-object-shaped substrings; the claim says the first one,
`{"cmd": "/a", "params": {}}`, is extracted and parsed, but the greedy regex
`\x7b.*\x7d` matches from the first `\x7b` to the *last* `\x7d`, the spanned
text is not valid JSON, and `get_ai_response` returns absence instead of the
first descriptor. -/
theorem translator_first_match_cex :
    get_ai_response "k" true
        (Except.ok "\x7b\"cmd\": \"/a\", \"params\": \x7b\x7d\x7d and \x7b\"cmd\": \"/b\", \"params\": \x7b\x7d\x7d") =
      none := rfl

/-- C2 (amended): the Translator extracts the single greedy span from the
first `\x7b` to the last `\x7d` of the reply, not the first JSON-object
substring: on the multi-object reply the extracted span is the whole text
(which then fails to parse), while for the reply `Sure! {"cmd":
"/system/resource", "params": {}} Hope that helps!` the span is exactly the
embedded object and the descriptor is returned despite the surrounding
prose. -/
theorem translator_greedy_extraction :
    get_ai_response "k" true
        (Except.ok "Sure! \x7b\"cmd\": \"/system/resource\", \"params\": \x7b\x7d\x7d Hope that helps!") =
      some [("cmd", Json.str "/system/resource"), ("params", Json.obj [])] ∧
    findJsonMatch "\x7b\"cmd\": \"/a\", \"params\": \x7b\x7d\x7d and \x7b\"cmd\": \"/b\", \"params\": \x7b\x7d\x7d" =
      some "\x7b\"cmd\": \"/a\", \"params\": \x7b\x7d\x7d and \x7b\"cmd\": \"/b\", \"params\": \x7b\x7d\x7d" :=
  ⟨rfl, rfl⟩

/-- C4 counterexample: for the service reply `{"cmd": "", "params": {}}` the
Translator returns a descriptor whose `cmd` value is the *empty* string — the
validation only checks that the key is present, not that its value is a
non-empty string — refuting the claimed invariant. -/
theorem translator_invariant_cex :
    get_ai_response "k" true (Except.ok "\x7b\"cmd\": \"\", \"params\": \x7b\x7d\x7d") =
      some [("cmd", Json.str ""), ("params", Json.obj [])] := rfl

/-- The validation step only lets through objects that contain a `cmd` key
and whose `params` value is itself an object. -/
theorem validateCommand_shape (j : Json) (fields : List (String × Json))
    (h : validateCommand j = some fields) :
    (fields.lookup "cmd").isSome = true ∧
    ∃ ps, fields.lookup "params" = some (Json.obj ps) := by
  cases j with
  | obj fs =>
    simp only [validateCommand] at h
    split at h
    · rename_i hc
      cases h
      simp only [Bool.and_eq_true] at hc
      obtain ⟨h1, h2⟩ := hc
      refine ⟨h1, ?_⟩
      cases hp : fields.lookup "params" with
      | none => rw [hp] at h2; simp [isObjVal] at h2
      | some v =>
        rw [hp] at h2
        cases v <;> simp [isObjVal] at h2
        case obj ps => exact ⟨ps, rfl⟩
    · exact Option.noConfusion h
  | null => exact Option.noConfusion h
  | bool b => exact Option.noConfusion h
  | num n => exact Option.noConfusion h
  | str s => exact Option.noConfusion h
  | arr es => exact Option.noConfusion h

/-- C4 (amended): every descriptor returned by `get_ai_response` contains a
`cmd` key (of arbitrary value — emptiness of the string is not checked) and a
`params` value that is a mapping. -/
theorem translator_descriptor_shape (api_key : String) (configure_ok : Bool)
    (outcome : Except String String) (fields : List (String × Json))
    (h : get_ai_response api_key configure_ok outcome = some fields) :
    (fields.lookup "cmd").isSome = true ∧
    ∃ ps, fields.lookup "params" = some (Json.obj ps) := by
  unfold get_ai_response at h
  split at h
  · exact Option.noConfusion h
  · split at h
    · exact Option.noConfusion h
    · split at h
      · exact Option.noConfusion h
      · split at h
        · exact Option.noConfusion h
        · split at h
          · exact Option.noConfusion h
          · exact validateCommand_shape _ fields h

/-- C4 witness: a concrete successful translation satisfying the shape. -/
theorem translator_descriptor_shape_witness :
    (get_ai_response "k" true
        (Except.ok "\x7b\"cmd\": \"/log\", \"params\": \x7b\x7d\x7d") =
      some [("cmd", Json.str "/log"), ("params", Json.obj [])]) ∧
    (([("cmd", Json.str "/log"), ("params", Json.obj [])].lookup "cmd").isSome = true ∧
      ∃ ps, [("cmd", Json.str "/log"), ("params", Json.obj [])].lookup "params" =
        some (Json.obj ps)) :=
  ⟨rfl, translator_descriptor_shape "k" true
    (Except.ok "\x7b\"cmd\": \"/log\", \"params\": \x7b\x7d\x7d")
    [("cmd", Json.str "/log"), ("params", Json.obj [])] rfl⟩

/-- C5: on every error path — missing credential, configuration or service
failure, no JSON-object substring in the reply, unparseable substring, or
missing / wrong-shaped keys — `get_ai_response` returns absence, never a
partially-populated descriptor. -/
theorem translator_error_absence (api_key : String) (configure_ok : Bool)
    (outcome : Except String String)
    (h : TranslatorErrorPath api_key configure_ok outcome) :
    get_ai_response api_key configure_ok outcome = none := by
  rcases h with hk | hcfg | ⟨e, ho⟩ | ⟨t, ho, hf⟩ | ⟨t, c, e, ho, hf, hj⟩ |
    ⟨t, c, j, ho, hf, hj, hv⟩
  · subst hk; rfl
  · subst hcfg
    unfold get_ai_response
    cases hk : (api_key == "") <;> simp [hk]
  · subst ho
    unfold get_ai_response
    cases hk : (api_key == "") <;> cases configure_ok <;> simp [hk]
  · subst ho
    unfold get_ai_response
    cases hk : (api_key == "") <;> cases configure_ok <;> simp [hk, hf]
  · subst ho
    unfold get_ai_response
    cases hk : (api_key == "") <;> cases configure_ok <;> simp [hk, hf, hj]
  · subst ho
    unfold get_ai_response
    cases hk : (api_key == "") <;> cases configure_ok <;> simp [hk, hf, hj, hv]

/-- C5 witness: the missing-credential path at a concrete input. -/
theorem translator_error_absence_witness :
    get_ai_response "" true (Except.ok "x") = none :=
  translator_error_absence "" true (Except.ok "x") (Or.inl rfl)
